import Mathlib

/-!
Shallow embedding of the gain-ventures-ai-diligence pipeline
(src/main.py, src/agents/research_agent.py, src/agents/web3_agent.py,
src/agents/diligence_agent.py, src/utils/airtable_client.py,
src/utils/email_client.py).

Python dict/JSON values are modelled by `JVal`; dict keys are strings, as
produced by `json.loads` on objects.  Python floats originating from short
JSON decimal literals are modelled as exact decimal rationals (Python's
shortest-round-trip `str` on such floats prints the decimal literal back).
External collaborators (HTTP, the language model, SMTP, the filesystem) are
modelled by environment records supplying each call's outcome; a raised
Python exception is an `Except.error` carrying the exception text.
-/

/-- A JSON/Python value: the data manipulated by the pipeline. -/
inductive JVal where
  | null
  | bool (b : Bool)
  | jint (n : Int)
  | jnum (q : ℚ)
  | str (s : String)
  | arr (xs : List JVal)
  | obj (kvs : List (String × JVal))

/-- Key lookup in an object's field list (first match wins, as in a dict). -/
def jLookup : List (String × JVal) → String → Option JVal
  | [], _ => none
  | (k, v) :: rest, key => if k == key then some v else jLookup rest key

/-- `d[k]` presence test for an object's field list. -/
def jHasKey (kvs : List (String × JVal)) (key : String) : Bool :=
  (jLookup kvs key).isSome

/-- Dict field lookup on an arbitrary value (`none` when not an object). -/
def jGet : JVal → String → Option JVal
  | .obj kvs, key => jLookup kvs key
  | _, _ => none

/-- Total version of Python's `d.get(k, default)`, defined on objects;
on a non-object it returns the default (callers that can reach a non-object
use `pyGetD` below, which models the raised `AttributeError`). -/
def jGetD (v : JVal) (key : String) (dflt : JVal) : JVal :=
  (jGet v key).getD dflt

/-- Python dict assignment `d[k] = v`: replace an existing key in place,
else append (insertion order is preserved by CPython dicts). -/
def objSet : List (String × JVal) → String → JVal → List (String × JVal)
  | [], key, v => [(key, v)]
  | (k, w) :: rest, key, v =>
    if k == key then (k, v) :: rest else (k, w) :: objSet rest key v

/-- Python `d.get(k, default)`: raises `AttributeError` on a non-dict. -/
def pyGetD (v : JVal) (key : String) (dflt : JVal) : Except String JVal :=
  match v with
  | .obj kvs => .ok (jGetD (.obj kvs) key dflt)
  | _ => .error "AttributeError: object has no attribute get"

/-- Python `d[k]` indexing: `KeyError` when absent, `TypeError` on a
non-dict (string/int indexing is not reached by the modelled code). -/
def pyIndex (v : JVal) (key : String) : Except String JVal :=
  match v with
  | .obj kvs =>
    match jLookup kvs key with
    | some w => .ok w
    | none => .error ("KeyError: " ++ key)
  | _ => .error "TypeError: value is not subscriptable"

/-- Python truthiness of a JSON value. -/
def pyTruthy : JVal → Bool
  | .null => false
  | .bool b => b
  | .jint n => n != 0
  | .jnum q => q != 0
  | .str s => s != ""
  | .arr xs => !xs.isEmpty
  | .obj kvs => !kvs.isEmpty

/-- Left-pad a digit string with zeros to the given width. -/
def padZeros (width : Nat) (s : String) : String :=
  if s.length ≥ width then s
  else String.mk (List.replicate (width - s.length) '0') ++ s

/-- Python `str()` of a float whose value is an exact decimal rational
(the only floats produced here: JSON decimal literals and the literal 5.0).
Renders the shortest exact decimal, always with at least one fractional
digit, matching CPython's repr on such values.  Rationals with no finite
decimal expansion cannot arise from JSON parsing; they fall back to a
fraction rendering. -/
def pyFloatStr (q : ℚ) : String :=
  let sign := if q < 0 then "-" else ""
  let n := q.num.natAbs
  let d := q.den
  match (List.range 25).find? (fun k => 10 ^ k % d == 0) with
  | some k =>
    let scaled := n * (10 ^ k / d)
    let ip := scaled / 10 ^ k
    let fp := scaled % 10 ^ k
    if k == 0 then sign ++ toString ip ++ ".0"
    else sign ++ toString ip ++ "." ++ padZeros k (toString fp)
  | none => sign ++ toString n ++ "/" ++ toString d

mutual
/-- Python `repr()` of a JSON value (string escaping inside reprs is not
modelled; no claim inspects reprs of strings containing quotes). -/
def pyRepr : JVal → String
  | .null => "None"
  | .bool true => "True"
  | .bool false => "False"
  | .jint n => toString n
  | .jnum q => pyFloatStr q
  | .str s => "\x27" ++ s ++ "\x27"
  | .arr xs => "[" ++ pyReprList xs ++ "]"
  | .obj kvs => "\x7b" ++ pyReprObj kvs ++ "\x7d"

/-- Comma-separated reprs of list elements. -/
def pyReprList : List JVal → String
  | [] => ""
  | [x] => pyRepr x
  | x :: rest => pyRepr x ++ ", " ++ pyReprList rest

/-- Comma-separated reprs of dict entries. -/
def pyReprObj : List (String × JVal) → String
  | [] => ""
  | [(k, v)] => "\x27" ++ k ++ "\x27: " ++ pyRepr v
  | (k, v) :: rest => "\x27" ++ k ++ "\x27: " ++ pyRepr v ++ ", " ++ pyReprObj rest
end

/-- Python `str()` of a value, as used by f-string interpolation. -/
def pyStr : JVal → String
  | .null => "None"
  | .bool true => "True"
  | .bool false => "False"
  | .jint n => toString n
  | .jnum q => pyFloatStr q
  | .str s => s
  | .arr xs => "[" ++ pyReprList xs ++ "]"
  | .obj kvs => "\x7b" ++ pyReprObj kvs ++ "\x7d"

/-- Python iteration over a value: lists yield elements, strings yield
characters, dicts yield their keys; other values raise `TypeError`. -/
def pyIter : JVal → Except String (List JVal)
  | .arr xs => .ok xs
  | .str s => .ok (s.toList.map (fun c => JVal.str (String.mk [c])))
  | .obj kvs => .ok (kvs.map (fun kv => JVal.str kv.1))
  | _ => .error "TypeError: value is not iterable"

/-- Whether `pat` is a prefix of `l`. -/
def charsPrefix : List Char → List Char → Bool
  | [], _ => true
  | _ :: _, [] => false
  | a :: as, b :: bs => a == b && charsPrefix as bs

/-- Whether `pat` occurs as a contiguous run of `l`. -/
def charsInfix (pat : List Char) : List Char → Bool
  | [] => charsPrefix pat []
  | c :: rest => charsPrefix pat (c :: rest) || charsInfix pat rest

/-- Python's substring test `pat in s`. -/
def strContains (s pat : String) : Bool :=
  charsInfix pat.toList s.toList

/-- Python `str.lower()` (ASCII case folding, which is all the scanned
keywords need). -/
def pyLower (s : String) : String :=
  String.mk (s.toList.map Char.toLower)

/-- Element-equality of a JSON value with a Python string. -/
def jEqStr (v : JVal) (key : String) : Bool :=
  match v with
  | .str s => s == key
  | _ => false

/-- Python `key in v` (see `strContains`). -/
def pyIn (key : String) : JVal → Except String Bool
  | .obj kvs => .ok (jHasKey kvs key)
  | .str s => .ok (strContains s key)
  | .arr xs => .ok (xs.any (fun x => jEqStr x key))
  | _ => .error "TypeError: argument is not iterable"

/-- The key/value pairs a value contributes to `dict.update`: a dict gives
its entries; a sequence must consist of key/value pairs (two-element
sequences with a string key — non-string keys cannot live in the
string-keyed object model and are mapped to errors, and `json.loads`
produces only string keys in objects); the empty string is an empty
sequence; anything else raises. -/
def updPairs : JVal → Except String (List (String × JVal))
  | .obj kvs => .ok kvs
  | .arr elems =>
    elems.mapM (fun e =>
      match e with
      | .arr [.str k, v] => .ok (k, v)
      | .str s =>
        match s.toList with
        | [c1, c2] => .ok (String.mk [c1], JVal.str (String.mk [c2]))
        | _ => .error "ValueError: dictionary update sequence element is not a pair"
      | _ => .error "ValueError: dictionary update sequence element is not a pair")
  | .str s =>
    if s == "" then .ok []
    else .error "ValueError: dictionary update sequence element is not a pair"
  | _ => .error "TypeError: value is not iterable"

/-- Python `base.update(v)` for a dict `base`. -/
def pyDictUpdate (base : List (String × JVal)) (v : JVal) :
    Except String (List (String × JVal)) :=
  match updPairs v with
  | .error e => .error e
  | .ok pairs => .ok (pairs.foldl (fun acc kv => objSet acc kv.1 kv.2) base)

/-- Whether an `Except` is a success. -/
def exOk : Except String α → Bool
  | .ok _ => true
  | .error _ => false

/-- The success value of an `Except` over `JVal` (`.null` on error;
only used where success is separately established). -/
def exVal : Except String JVal → JVal
  | .ok v => v
  | .error _ => .null

/-! ## Company identity (`CompanyData`, src/main.py) -/

/-- The trigger payload: `CompanyData` in src/main.py. -/
structure CompanyData where
  company_name : String
  website : String
  external_id : String
  industry : String
  one_liner : String := ""
  description : String := ""

/-! ## Record store (`AirtableClient`, src/utils/airtable_client.py) -/

/-- A record of the external store: internal row id plus fields. -/
structure AirRecord where
  id : String
  fields : List (String × JVal)

/-- Outcome of one external HTTP call (transport errors and non-2xx
`raise_for_status` failures are both `fail`). -/
inductive HttpResult (α : Type) where
  | ok (a : α)
  | fail (e : String)

/-- The store's behaviour for one `update_record` call: the outcome of the
lookup GET (the list of records matching the external-id filter) and of the
PATCH. -/
structure StoreEnv where
  lookupHttp : HttpResult (List AirRecord)
  patchHttp : HttpResult JVal

/-- Requests issued against the record store, for observing side effects. -/
inductive StoreReq where
  | getReq (externalId : String)
  | patchReq (recordId : String) (fields : List (String × JVal))

/-- `AirtableClient.get_record_by_external_id`: returns the first matching
record, or `none` both when no record matches and when the HTTP call fails
(the except block swallows the error and returns `None`). -/
def get_record_by_external_id (se : StoreEnv) (externalId : String) :
    Option AirRecord × List StoreReq :=
  match se.lookupHttp with
  | .fail _ => (none, [.getReq externalId])
  | .ok records => (records.head?, [.getReq externalId])

/-- `AirtableClient.update_record`: look the record up by external id,
raise when no record was found, else PATCH the fields (re-raising any
patch failure). -/
def update_record (se : StoreEnv) (externalId : String)
    (fields : List (String × JVal)) : Except String JVal × List StoreReq :=
  match get_record_by_external_id se externalId with
  | (none, t) => (.error ("Record not found for external ID: " ++ externalId), t)
  | (some rec, t) =>
    match se.patchHttp with
    | .fail e => (.error e, t ++ [.patchReq rec.id fields])
    | .ok j => (.ok j, t ++ [.patchReq rec.id fields])

/-- A store environment under which `update_record` succeeds: the lookup
returns at least one record and the patch succeeds. -/
def storeOk (se : StoreEnv) : Bool :=
  match se.lookupHttp, se.patchHttp with
  | .ok (_ :: _), .ok _ => true
  | _, _ => false

/-! ## Notification sink (`EmailClient.send_diligence_report`,
src/utils/email_client.py) -/

/-- `EmailClient.send_diligence_report`: builds and sends the message,
returning `True`; any exception (SMTP transport, file access) is caught and
turned into `False` — the function never raises. -/
def send_diligence_report (smtp : Except String Unit)
    (_company_name : JVal) (_pdf_path : JVal) (_summary : JVal) : Bool :=
  match smtp with
  | .ok _ => true
  | .error _ => false

/-! ## Research agent (`ResearchAgent`, src/agents/research_agent.py) -/

/-- What BeautifulSoup exposes of a fetched page: the title text, the meta
description content, the element texts matched by each `about_selectors`
entry in order, and the page's paragraph texts. -/
structure WebPage where
  title : Option String
  metaDescription : Option String
  selectorTexts : List (List String)
  paragraphs : List String

/-- One language-model completion outcome: transport failure, or returned
text together with the result of `json.loads` on it. -/
inductive LLMResp where
  | fail (e : String)
  | text (s : String) (parsed : Except String JVal)

/-- Environment of one `ResearchAgent.research_company` run: the website
fetch outcome and the two enrichment completions. -/
structure ResearchEnv where
  scrapeResp : Except String WebPage
  searchResp : LLMResp
  teamResp : LLMResp

/-- `ResearchAgent._extract_about_section`: first selector whose combined
text (first three element texts, space-joined) exceeds 50 characters wins,
truncated to 1000; otherwise the first five paragraphs, truncated; else
the empty string. -/
def extract_about_section (page : WebPage) : String :=
  match page.selectorTexts.find? (fun elems =>
      !elems.isEmpty &&
      50 < (String.intercalate " " ((elems.take 3).map String.trim)).length) with
  | some elems => (String.intercalate " " ((elems.take 3).map String.trim)).take 1000
  | none =>
    if page.paragraphs.isEmpty then ""
    else (String.intercalate " " ((page.paragraphs.take 5).map String.trim)).take 1000

/-- `ResearchAgent._scrape_website`: on success a dict of title,
description, about text and url; on any transport/parse failure an
error-tagged dict — it never raises. -/
def scrape_website (resp : Except String WebPage) (url : String) : JVal :=
  match resp with
  | .error e => .obj [("error", .str e), ("url", .str url)]
  | .ok page =>
    .obj [("title", .str ((page.title.map String.trim).getD "")),
          ("description", .str (page.metaDescription.getD "")),
          ("about", .str (extract_about_section page)),
          ("url", .str url)]

/-- `ResearchAgent._web_search`: the parsed completion, the raw text under
`summary` on parse failure, or an error-tagged dict on transport failure. -/
def web_search (resp : LLMResp) : JVal :=
  match resp with
  | .fail e => .obj [("error", .str e)]
  | .text s parsed =>
    match parsed with
    | .ok j => j
    | .error _ => .obj [("summary", .str s)]

/-- `ResearchAgent._research_team`: same fallback structure as
`_web_search`. -/
def research_team (resp : LLMResp) : JVal :=
  match resp with
  | .fail e => .obj [("error", .str e)]
  | .text s parsed =>
    match parsed with
    | .ok j => j
    | .error _ => .obj [("summary", .str s)]

/-- `ResearchAgent.research_company`: scrape the site, run the news/market
search and the team search, and assemble the dossier.  The two
`search_data.get` calls raise `AttributeError` when the search completion
parsed to a non-dict JSON value, which propagates out of
`research_company`. -/
def research_company (env : ResearchEnv) (c : CompanyData) :
    Except String JVal :=
  let basic := scrape_website env.scrapeResp c.website
  let search := web_search env.searchResp
  match pyGetD search "news" (.arr []) with
  | .error e => .error e
  | .ok news =>
    match pyGetD search "market" (.obj []) with
    | .error e => .error e
    | .ok market =>
      let team := research_team env.teamResp
      .ok (.obj [("company_name", .str c.company_name),
                 ("website", .str c.website),
                 ("basic_info", basic),
                 ("team_info", team),
                 ("product_info", .obj []),
                 ("market_info", market),
                 ("financial_info", .obj []),
                 ("news_mentions", news),
                 ("social_presence", .obj [])])

/-! ## Domain analyzer (`Web3Agent`, src/agents/web3_agent.py) -/

/-- Environment of one `Web3Agent.analyze_web3_company` run: the
classification completion and the scoring completion. -/
structure Web3Env where
  analysisResp : LLMResp
  scoringResp : LLMResp

/-- The fixed category enumeration scanned by `_extract_category`. -/
def web3Categories : List String :=
  ["DeFi", "NFT", "DAO", "Infrastructure", "GameFi", "Social", "Trading"]

/-- `Web3Agent._extract_category`: first enumeration member occurring
case-insensitively in the analysis text, else `"Other"`. -/
def extract_category (analysis_text : String) : String :=
  match web3Categories.find?
      (fun cat => strContains (pyLower analysis_text) (pyLower cat)) with
  | some cat => cat
  | none => "Other"

/-- `Web3Agent._extract_recommendation`: keyword scan over the lowered
text — Go keywords first, then No-Go keywords, default Monitor. -/
def extract_recommendation (analysis_text : String) : String :=
  let text_lower := pyLower analysis_text
  if strContains text_lower "strong buy" || strContains text_lower "highly recommend" then
    "Go"
  else if strContains text_lower "avoid" || strContains text_lower "pass" ||
      strContains text_lower "high risk" then
    "No-Go"
  else
    "Monitor"

/-- `Web3Agent._score_against_framework`: the parsed scoring completion;
on any failure (transport or `json.loads`) the fallback scorecard with
`overall_score = 5.0` and `investment_recommendation = "Monitor"`. -/
def score_against_framework (resp : LLMResp) (_c : CompanyData)
    (_research_data _analysis : JVal) : JVal :=
  match resp with
  | .fail e =>
    .obj [("error", .str e), ("overall_score", .jnum 5),
          ("investment_recommendation", .str "Monitor")]
  | .text _ (.error pe) =>
    .obj [("error", .str pe), ("overall_score", .jnum 5),
          ("investment_recommendation", .str "Monitor")]
  | .text _ (.ok j) => j

/-- Whether the scoring completion fails at transport or parse level. -/
def scoreRespFails : LLMResp → Bool
  | .fail _ => true
  | .text _ (.error _) => true
  | .text _ (.ok _) => false

/-- `Web3Agent.analyze_web3_company`: classification completion with JSON
parse and textual fallback, then scoring; `analysis_json["framework_score"]
= ...` raises `TypeError` on a non-dict parse result, which the outer
`except` turns into the error envelope.  A transport failure of the
classification call returns the error envelope before the scoring call. -/
def analyze_web3_company (env : Web3Env) (c : CompanyData)
    (research_data : JVal) : JVal :=
  match env.analysisResp with
  | .fail e =>
    .obj [("error", .str e), ("analysis", .str "Failed to complete Web3 analysis")]
  | .text s parsed =>
    let analysis_json : JVal :=
      match parsed with
      | .ok j => j
      | .error _ =>
        .obj [("web3_analysis", .str s),
              ("category", .str (extract_category s)),
              ("recommendation", .str (extract_recommendation s))]
    let score := score_against_framework env.scoringResp c research_data analysis_json
    match analysis_json with
    | .obj kvs => .obj (objSet kvs "framework_score" score)
    | _ =>
      .obj [("error", .str "TypeError: object does not support item assignment"),
            ("analysis", .str "Failed to complete Web3 analysis")]

/-! ## Report composer (`DiligenceAgent`, src/agents/diligence_agent.py) -/

/-- Environment of one `DiligenceAgent.generate_report` run: the summary
and structured-analysis completions, whether directory creation and
`doc.build` succeed, and the two timestamp strings taken at run time. -/
structure ReportEnv where
  summaryResp : LLMResp
  structuredResp : LLMResp
  renderOk : Bool
  nowStamp : String
  fileStamp : String

/-- `DiligenceAgent._generate_executive_summary`: the completion text, or
an explicit failure string on transport failure — never raises. -/
def generate_executive_summary (resp : LLMResp) : String :=
  match resp with
  | .fail e => "Executive summary generation failed: " ++ e
  | .text s _ => s

/-- The error text produced when the structured-analysis completion fails
at transport or parse level. -/
def structErrMsg : LLMResp → String
  | .fail e => e
  | .text _ (.error pe) => pe
  | .text _ (.ok _) => ""

/-- The fixed fallback block of `_generate_structured_analysis`. -/
def analysisStub (e : String) : JVal :=
  .obj [("investment_recommendation", .str "Monitor"),
        ("key_findings", .arr [.str ("Analysis generation failed: " ++ e)]),
        ("risks", .arr [.str "Unable to assess risks due to analysis error"]),
        ("opportunities", .arr [.str "Unable to assess opportunities due to analysis error"]),
        ("next_steps", .arr [.str "Manual review required"])]

/-- `DiligenceAgent._generate_structured_analysis`: the parsed completion,
or the fixed stub when the call or the JSON parse fails. -/
def generate_structured_analysis (resp : LLMResp) : JVal :=
  match resp with
  | .fail e => analysisStub e
  | .text _ (.error pe) => analysisStub pe
  | .text _ (.ok j) => j

/-- An element of the rendered document: a paragraph's text, a spacer, or
a table's rows (visual styling is not modelled). -/
inductive RElem where
  | para (text : String)
  | spacer
  | table (rows : List (List String))

/-- `reportlab.Paragraph` applied to a raw value: requires a string. -/
def paraOf (v : JVal) : Except String RElem :=
  match v with
  | .str s => .ok (.para s)
  | _ => .error "AttributeError: Paragraph requires a string"

/-- A bulleted block body: one paragraph per iterated item, rendered
through f-string interpolation. -/
def bulletItems (v : JVal) : Except String (List RElem) :=
  match pyIter v with
  | .error e => .error e
  | .ok xs => .ok (xs.map (fun it => RElem.para ("• " ++ pyStr it)))

/-- The recommendation badge colour. -/
def recColor (v : JVal) : String :=
  match v with
  | .str "Go" => "green"
  | .str "No-Go" => "red"
  | _ => "orange"

/-- The scorecard rows built from the scoring dict. -/
def scoreRows (scoring : JVal) : List (List String) :=
  [["Metric", "Score (1-10)"],
   ["Team Quality", pyStr (jGetD scoring "team_score" (.str "N/A"))],
   ["Technology", pyStr (jGetD scoring "tech_score" (.str "N/A"))],
   ["Market Opportunity", pyStr (jGetD scoring "market_score" (.str "N/A"))],
   ["Overall Score", "<b>" ++ pyStr (jGetD scoring "overall_score" (.str "N/A")) ++ "</b>"]]

/-- The scorecard section: emitted only when the scoring value is truthy
and `overall_score in scoring` holds; the row construction's `.get` calls
require a dict and raise otherwise. -/
def scoreBlock (scoring : JVal) : Except String (List RElem) :=
  if pyTruthy scoring then
    match pyIn "overall_score" scoring with
    | .error e => .error e
    | .ok true =>
      match scoring with
      | .obj _ =>
        .ok [RElem.para "<b>Framework Scoring</b>",
             RElem.table (scoreRows scoring), RElem.spacer]
      | _ => .error "AttributeError: object has no attribute get"
    | .ok false => .ok []
  else .ok []

/-- The document body built by `_generate_pdf_report` before `doc.build`:
title block, executive summary, recommendation badge, the three bulleted
blocks, the conditional scorecard table, and next steps. -/
def buildStory (r : JVal) : Except String (List RElem) :=
  match pyIndex r "company_name" with
  | .error e => .error e
  | .ok cn =>
    match pyIndex r "generated_at" with
    | .error e => .error e
    | .ok gen =>
      match pyIndex r "executive_summary" with
      | .error e => .error e
      | .ok es =>
        match paraOf es with
        | .error e => .error e
        | .ok esPara =>
          match pyGetD r "investment_recommendation" (.str "Monitor") with
          | .error e => .error e
          | .ok recv =>
            match pyGetD r "key_findings" (.arr []) with
            | .error e => .error e
            | .ok kf =>
              match bulletItems kf with
              | .error e => .error e
              | .ok fb =>
                match pyGetD r "risks" (.arr []) with
                | .error e => .error e
                | .ok rk =>
                  match bulletItems rk with
                  | .error e => .error e
                  | .ok rb =>
                    match pyGetD r "opportunities" (.arr []) with
                    | .error e => .error e
                    | .ok op =>
                      match bulletItems op with
                      | .error e => .error e
                      | .ok ob =>
                        match pyGetD r "scoring" (.obj []) with
                        | .error e => .error e
                        | .ok scoring =>
                          match scoreBlock scoring with
                          | .error e => .error e
                          | .ok sb =>
                            match pyGetD r "next_steps" (.arr []) with
                            | .error e => .error e
                            | .ok ns =>
                              match bulletItems ns with
                              | .error e => .error e
                              | .ok nb =>
                                .ok ([RElem.para "Investment Diligence Report",
                                      RElem.para ("<b>" ++ pyStr cn ++ "</b>"),
                                      RElem.para ("Generated: " ++ pyStr gen),
                                      RElem.spacer,
                                      RElem.para "<b>Executive Summary</b>",
                                      esPara, RElem.spacer,
                                      RElem.para "<b>Investment Recommendation</b>",
                                      RElem.para ("<b><font color=\x27" ++ recColor recv ++
                                        "\x27>" ++ pyStr recv ++ "</font></b>"),
                                      RElem.spacer,
                                      RElem.para "<b>Key Findings</b>"] ++
                                     fb ++ [RElem.spacer] ++
                                     ([RElem.para "<b>Key Risks</b>"] ++ rb ++ [RElem.spacer]) ++
                                     ([RElem.para "<b>Opportunities</b>"] ++ ob ++ [RElem.spacer]) ++
                                     sb ++
                                     ([RElem.para "<b>Next Steps</b>"] ++ nb))

/-- Replace spaces by underscores (Python `str.replace(' ', '_')`). -/
def replaceSpaces (s : String) : String :=
  String.mk (s.toList.map (fun c => if c = ' ' then '_' else c))

/-- `DiligenceAgent._generate_pdf_report`: computes the filename from
`report_data['company_name']`, builds the story and the document; any
exception inside is caught and degrades to the plaintext error filename —
except that a non-string `company_name` also breaks the except block's own
filename computation and re-raises.  Returns the artifact path and the
story that was rendered (empty when rendering degraded). -/
def generate_pdf_report (renderOk : Bool) (fileStamp : String) (r : JVal) :
    Except String (String × List RElem) :=
  match pyIndex r "company_name" with
  | .error e => .error e
  | .ok cnv =>
    match cnv with
    | .str cn =>
      let errName := "reports/error_" ++ replaceSpaces cn ++ ".txt"
      match buildStory r with
      | .error _ => .ok (errName, [])
      | .ok story =>
        if renderOk then
          .ok ("reports/" ++ replaceSpaces cn ++ "_" ++ fileStamp ++ ".pdf", story)
        else .ok (errName, [])
    | _ => .error "AttributeError: replace requires a string"

/-- The initial `report_data` dict of `generate_report`, before the
executive summary and structured analysis are filled in. -/
def reportBase (c : CompanyData) (nowStamp : String)
    (research_data web3_analysis scoring : JVal) : List (String × JVal) :=
  [("company_name", .str c.company_name),
   ("generated_at", .str nowStamp),
   ("executive_summary", .str ""),
   ("investment_recommendation", .str ""),
   ("key_findings", .arr []),
   ("risks", .arr []),
   ("opportunities", .arr []),
   ("next_steps", .arr []),
   ("scoring", scoring),
   ("raw_data", .obj [("research", research_data),
                      ("web3_analysis", web3_analysis)])]

/-- `DiligenceAgent.generate_report`: assemble the report dict, fill in
the executive summary, merge the structured analysis via `dict.update`
(which raises on a non-mapping), render the document, and record the
artifact path.  The `dict.update` raise is the one way this function
propagates an exception. -/
def generate_report (env : ReportEnv) (c : CompanyData)
    (research_data web3_analysis : JVal) : Except String JVal :=
  match pyGetD web3_analysis "framework_score" (.obj []) with
  | .error e => .error e
  | .ok scoring =>
    match pyDictUpdate
        (objSet (reportBase c env.nowStamp research_data web3_analysis scoring)
          "executive_summary" (.str (generate_executive_summary env.summaryResp)))
        (generate_structured_analysis env.structuredResp) with
    | .error e => .error e
    | .ok updated =>
      match generate_pdf_report env.renderOk env.fileStamp (.obj updated) with
      | .error e => .error e
      | .ok (pdfPath, _story) =>
        .ok (.obj (objSet updated "pdf_path" (.str pdfPath)))

/-! ## Pipeline orchestrator (`process_company_research`, src/main.py) -/

/-- Orchestrator-level observable side effects: each record-store update
call (with fields and whether it succeeded) and each notification-sink
invocation (with its arguments). -/
inductive Event where
  | updateCall (externalId : String) (fields : List (String × JVal)) (ok : Bool)
  | notifyCall (company : String) (pdfPath summary : JVal)

/-- Environment of one full orchestrator run: a store behaviour for each
of the (up to) three `update_record` calls, the three agent environments,
the SMTP transport outcome, and the three `Last Updated` timestamps. -/
structure OrchEnv where
  store1 : StoreEnv
  store2 : StoreEnv
  storeErr : StoreEnv
  researchEnv : ResearchEnv
  web3Env : Web3Env
  reportEnv : ReportEnv
  smtp : Except String Unit
  now1 : String
  now2 : String
  nowErr : String

/-- Fields of the first status update (step 1). -/
def initialFields (now : String) : List (String × JVal) :=
  [("Stage", .str "Initial Research"),
   ("Diligence Status", .str "In Progress"),
   ("Last Updated", .str now)]

/-- Fields of the completion update (step 5). -/
def completeFields (aiRec : JVal) (now : String) : List (String × JVal) :=
  [("Stage", .str "Partner Review"),
   ("Diligence Status", .str "Complete"),
   ("AI Recommendation", aiRec),
   ("Last Updated", .str now)]

/-- Fields of the failure-path update. -/
def failFields (now : String) : List (String × JVal) :=
  [("Stage", .str "New Lead"),
   ("Diligence Status", .str "Failed"),
   ("AI Recommendation", .str "Error - Review Manually"),
   ("Last Updated", .str now)]

/-- The `try` body of `process_company_research`: the six steps in order,
threading the first raised exception out, together with the events
observed up to that point. -/
def pipelineBody (env : OrchEnv) (c : CompanyData) :
    Except String Unit × List Event :=
  match (update_record env.store1 c.external_id (initialFields env.now1)).1 with
  | .error e => (.error e, [.updateCall c.external_id (initialFields env.now1) false])
  | .ok _ =>
    match research_company env.researchEnv c with
    | .error e => (.error e, [.updateCall c.external_id (initialFields env.now1) true])
    | .ok rd =>
      match generate_report env.reportEnv c rd
          (analyze_web3_company env.web3Env c rd) with
      | .error e => (.error e, [.updateCall c.external_id (initialFields env.now1) true])
      | .ok rep =>
        match pyGetD rep "investment_recommendation" (.str "Monitor") with
        | .error e => (.error e, [.updateCall c.external_id (initialFields env.now1) true])
        | .ok aiRec =>
          match (update_record env.store2 c.external_id
              (completeFields aiRec env.now2)).1 with
          | .error e =>
            (.error e, [.updateCall c.external_id (initialFields env.now1) true,
                        .updateCall c.external_id (completeFields aiRec env.now2) false])
          | .ok _ =>
            match pyGetD rep "pdf_path" (.str ""),
                pyGetD rep "executive_summary" (.str "Summary not available") with
            | .ok pdfPath, .ok summary =>
              let _sent := send_diligence_report env.smtp
                (.str c.company_name) pdfPath summary
              (.ok (), [.updateCall c.external_id (initialFields env.now1) true,
                        .updateCall c.external_id (completeFields aiRec env.now2) true,
                        .notifyCall c.company_name pdfPath summary])
            | .error e, _ =>
              (.error e, [.updateCall c.external_id (initialFields env.now1) true,
                          .updateCall c.external_id (completeFields aiRec env.now2) true])
            | _, .error e =>
              (.error e, [.updateCall c.external_id (initialFields env.now1) true,
                          .updateCall c.external_id (completeFields aiRec env.now2) true])

/-- `process_company_research`: run the pipeline body; on any escaped
exception, attempt the failure-status update, swallowing its own failure.
The function itself never raises, so the result is always `.ok ()`. -/
def process_company_research (env : OrchEnv) (c : CompanyData) :
    Except String Unit × List Event :=
  match pipelineBody env c with
  | (.ok _, t) => (.ok (), t)
  | (.error _, t) =>
    let fe := failFields env.nowErr
    let u3 := (update_record env.storeErr c.external_id fe).1
    (.ok (), t ++ [.updateCall c.external_id fe (exOk u3)])

/-- The `Diligence Status` value a trace event successfully wrote, if
any. -/
def writtenDS : Event → Option String
  | .updateCall _ fields true =>
    match jLookup fields "Diligence Status" with
    | some (.str s) => some s
    | _ => none
  | _ => none

/-- The last `Diligence Status` successfully written during a run. -/
def lastDS (t : List Event) : Option String :=
  (t.filterMap writtenDS).getLast?

/-- The research step of a run, as a function of the environment. -/
def researchStep (env : OrchEnv) (c : CompanyData) : Except String JVal :=
  research_company env.researchEnv c

/-- The report step of a run, as a function of the environment (defined
on runs whose research step succeeded). -/
def reportStep (env : OrchEnv) (c : CompanyData) : Except String JVal :=
  generate_report env.reportEnv c (exVal (researchStep env c))
    (analyze_web3_company env.web3Env c (exVal (researchStep env c)))

/-! ## Helper lemmas -/

/-- Dict assignment stores the value at its key. -/
lemma jLookup_objSet_self (kvs : List (String × JVal)) (k : String) (v : JVal) :
    jLookup (objSet kvs k v) k = some v := by
  induction kvs with
  | nil => simp [objSet, jLookup]
  | cons kv rest ih =>
    obtain ⟨k', w⟩ := kv
    simp only [objSet]
    by_cases h : k' = k
    · subst h
      simp [jLookup]
    · rw [if_neg (by simpa using h)]
      simp only [jLookup]
      rw [if_neg (by simpa using h)]
      exact ih

/-- Dict assignment leaves other keys unchanged. -/
lemma jLookup_objSet_ne (kvs : List (String × JVal)) (k : String) (v : JVal)
    (key : String) (hne : key ≠ k) :
    jLookup (objSet kvs k v) key = jLookup kvs key := by
  induction kvs with
  | nil =>
    simp only [objSet, jLookup]
    rw [if_neg (by simpa using fun h => hne h.symm)]
  | cons kv rest ih =>
    obtain ⟨k', w⟩ := kv
    simp only [objSet]
    by_cases h : k' = k
    · subst h
      rw [if_pos (by simp)]
      simp only [jLookup]
      rw [if_neg (by simpa using fun h2 => hne h2.symm),
        if_neg (by simpa using fun h2 => hne h2.symm)]
    · rw [if_neg (by simpa using h)]
      simp only [jLookup]
      by_cases h2 : k' = key
      · subst h2
        rw [if_pos (by simp), if_pos (by simp)]
      · rw [if_neg (by simpa using h2), if_neg (by simpa using h2)]
        exact ih

/-- Folding dict assignments preserves key presence. -/
lemma jLookup_foldl_objSet_isSome (pairs : List (String × JVal))
    (kvs : List (String × JVal)) (key : String)
    (h : (jLookup kvs key).isSome = true) :
    (jLookup (pairs.foldl (fun acc kv => objSet acc kv.1 kv.2) kvs) key).isSome = true := by
  induction pairs generalizing kvs with
  | nil => simpa using h
  | cons p rest ih =>
    simp only [List.foldl_cons]
    apply ih
    by_cases hk : key = p.1
    · subst hk; rw [jLookup_objSet_self]; rfl
    · rw [jLookup_objSet_ne _ _ _ _ hk]; exact h

/-- A successful `Except` is `.ok` of its extracted value. -/
lemma exOk_eq_ok (x : Except String JVal) (h : exOk x = true) : x = .ok (exVal x) := by
  cases x with
  | ok v => rfl
  | error e => simp [exOk] at h

/-- `update_record` succeeds under a store environment with a found record
and a successful patch. -/
lemma update_record_ok_of_storeOk (se : StoreEnv) (externalId : String)
    (fields : List (String × JVal)) (h : storeOk se = true) :
    ∃ j, (update_record se externalId fields).1 = .ok j := by
  obtain ⟨lu, pa⟩ := se
  cases lu with
  | fail e => simp [storeOk] at h
  | ok records =>
    cases records with
    | nil => simp [storeOk] at h
    | cons r rs =>
      cases pa with
      | fail e => simp [storeOk] at h
      | ok j => exact ⟨j, rfl⟩

/-- `update_record` fails when the lookup finds nothing or the patch
fails. -/
lemma update_record_error_of_not_storeOk (se : StoreEnv) (externalId : String)
    (fields : List (String × JVal)) (h : storeOk se = false) :
    ∃ e, (update_record se externalId fields).1 = .error e := by
  obtain ⟨lu, pa⟩ := se
  cases lu with
  | fail e => exact ⟨_, rfl⟩
  | ok records =>
    cases records with
    | nil => exact ⟨_, rfl⟩
    | cons r rs =>
      cases pa with
      | fail e => exact ⟨e, rfl⟩
      | ok j => simp [storeOk] at h

/-- The common fallback-scorecard fact behind the scoring step. -/
lemma score_fallback_lookup (resp : LLMResp) (c : CompanyData)
    (rd aj : JVal) (h : scoreRespFails resp = true) :
    jGet (score_against_framework resp c rd aj) "overall_score" = some (.jnum 5) ∧
    jGet (score_against_framework resp c rd aj) "investment_recommendation" =
      some (.str "Monitor") := by
  cases resp with
  | fail e => exact ⟨rfl, rfl⟩
  | text s pr =>
    cases pr with
    | ok j => simp [scoreRespFails] at h
    | error pe => exact ⟨rfl, rfl⟩

/-- A concrete company payload used by witnesses. -/
def c0 : CompanyData :=
  { company_name := "Acme", website := "http://bad.invalid",
    external_id := "X1", industry := "Infra" }

/-! ## Claim C10 -/

/-- Claim C10: when the lookup step yields no record — whether the record
is absent or the lookup HTTP call failed (the lookup swallows its own
errors and returns `None`) — `update_record` raises the not-found error
and issues no patch request.  The right-hand side does not depend on the
store environment's patch behaviour, so lookup-failure and absence are
indistinguishable at this interface. -/
theorem update_record_not_found (se : StoreEnv) (externalId : String)
    (fields : List (String × JVal))
    (h : (get_record_by_external_id se externalId).1 = none) :
    update_record se externalId fields =
      (.error ("Record not found for external ID: " ++ externalId),
       [.getReq externalId]) := by
  obtain ⟨lu, pa⟩ := se
  cases lu with
  | fail e => rfl
  | ok records =>
    simp only [get_record_by_external_id] at h
    cases records with
    | nil => rfl
    | cons r rs => simp at h

/-- A store environment whose lookup HTTP call fails. -/
def seLookupDown : StoreEnv := ⟨.fail "connection error", .ok .null⟩

/-- Witness for C10 at a concrete unreachable-store environment. -/
theorem update_record_not_found_witness :
    (get_record_by_external_id seLookupDown "X1").1 = none ∧
    update_record seLookupDown "X1" [] =
      (.error ("Record not found for external ID: " ++ "X1"), [.getReq "X1"]) :=
  ⟨rfl, update_record_not_found seLookupDown "X1" [] rfl⟩

/-! ## Claim C5 -/

/-- Claim C5: for every scoring completion that fails at transport level
or whose text fails JSON parsing, `_score_against_framework` returns a
scorecard with `overall_score = 5.0` and
`investment_recommendation = "Monitor"`. -/
theorem score_fallback (resp : LLMResp) (c : CompanyData) (rd aj : JVal)
    (h : scoreRespFails resp = true) :
    jGet (score_against_framework resp c rd aj) "overall_score" = some (.jnum 5) ∧
    jGet (score_against_framework resp c rd aj) "investment_recommendation" =
      some (.str "Monitor") :=
  score_fallback_lookup resp c rd aj h

/-- Witness for C5: a transport-failing scoring call at concrete inputs. -/
theorem score_fallback_witness :
    scoreRespFails (.fail "boom") = true ∧
    jGet (score_against_framework (.fail "boom") c0 (.obj []) (.obj []))
      "overall_score" = some (.jnum 5) ∧
    jGet (score_against_framework (.fail "boom") c0 (.obj []) (.obj []))
      "investment_recommendation" = some (.str "Monitor") :=
  ⟨rfl, score_fallback (.fail "boom") c0 (.obj []) (.obj []) rfl⟩

/-! ## Claim C7 (corrected) -/

/-- Counterexample to C7 as stated: a text containing "avoid" and not
"strong buy" whose recommendation is "Go", because it also contains
"highly recommend", which the scan checks first. -/
theorem extract_recommendation_counterexample :
    strContains (pyLower "Highly recommend caution: avoid.") "avoid" = true ∧
    strContains (pyLower "Highly recommend caution: avoid.") "strong buy" = false ∧
    extract_recommendation "Highly recommend caution: avoid." = "Go" := by
  refine ⟨by decide, by decide, by decide⟩

/-- Claim C7 (amended): the keyword scan checks the Go keywords first, so
a text containing "avoid" (case-insensitively) resolves to "No-Go" only
when it contains neither "strong buy" nor "highly recommend". -/
theorem extract_recommendation_amended (s : String)
    (h1 : strContains (pyLower s) "avoid" = true)
    (h2 : strContains (pyLower s) "strong buy" = false)
    (h3 : strContains (pyLower s) "highly recommend" = false) :
    extract_recommendation s = "No-Go" := by
  unfold extract_recommendation
  simp only [h1, h2, h3, Bool.false_or, Bool.true_or, if_false, if_true,
    Bool.false_eq_true]

/-- Witness for the amended C7 at a concrete text. -/
theorem extract_recommendation_amended_witness :
    strContains (pyLower "Avoid this deal") "avoid" = true ∧
    extract_recommendation "Avoid this deal" = "No-Go" :=
  ⟨by decide, extract_recommendation_amended "Avoid this deal"
    (by decide) (by decide) (by decide)⟩

/-! ## Claim C4 (corrected) -/

/-- Whether the classification parse outcome lets the
`framework_score` assignment succeed: a parse failure (textual fallback
dict) or a parsed JSON object. -/
def classOkObj : Except String JVal → Bool
  | .error _ => true
  | .ok (.obj _) => true
  | .ok _ => false

/-- A classification call that fails at transport level. -/
def w3envC4 : Web3Env := ⟨.fail "API connection error", .fail "unused"⟩

/-- Counterexample to C4 as stated: when the classification call fails at
transport level, `analyze_web3_company` returns the error envelope with no
`framework_score` at all, and the report composer's
`web3_analysis.get("framework_score", {})` yields the empty dict — not the
fallback scorecard. -/
theorem classification_failure_empty_scorecard :
    jGet (analyze_web3_company w3envC4 c0 (.obj [])) "framework_score" = none ∧
    jGetD (analyze_web3_company w3envC4 c0 (.obj [])) "framework_score" (.obj []) =
      .obj [] :=
  ⟨rfl, rfl⟩

/-- Claim C4 (amended): the unknown-to-neutral fallback scorecard
(`overall_score = 5.0`, `investment_recommendation = "Monitor"`) is
guaranteed whenever the scoring call is reached and fails (transport or
parse); but when the classification call fails at transport level the
scoring call is never reached and the analysis carries no
`framework_score`, so the report's scoring defaults to the empty dict. -/
theorem scorecard_fallback_amended (env : Web3Env) (c : CompanyData) (rd : JVal) :
    (∀ e, env.analysisResp = .fail e →
      jGet (analyze_web3_company env c rd) "framework_score" = none ∧
      jGetD (analyze_web3_company env c rd) "framework_score" (.obj []) = .obj []) ∧
    (∀ s pr, env.analysisResp = .text s pr → classOkObj pr = true →
      scoreRespFails env.scoringResp = true →
      ∃ fs, jGet (analyze_web3_company env c rd) "framework_score" = some fs ∧
        jGet fs "overall_score" = some (.jnum 5) ∧
        jGet fs "investment_recommendation" = some (.str "Monitor")) := by
  constructor
  · intro e h
    unfold analyze_web3_company
    rw [h]
    exact ⟨rfl, rfl⟩
  · intro s pr h hobj hscore
    unfold analyze_web3_company
    rw [h]
    cases pr with
    | error pe =>
      refine ⟨score_against_framework env.scoringResp c rd
        (.obj [("web3_analysis", .str s), ("category", .str (extract_category s)),
               ("recommendation", .str (extract_recommendation s))]), ?_,
        (score_fallback_lookup _ c rd _ hscore).1,
        (score_fallback_lookup _ c rd _ hscore).2⟩
      rfl
    | ok j =>
      cases j with
      | obj kvs =>
        refine ⟨score_against_framework env.scoringResp c rd (.obj kvs), ?_,
          (score_fallback_lookup _ c rd _ hscore).1,
          (score_fallback_lookup _ c rd _ hscore).2⟩
        simp only [jGet]
        exact jLookup_objSet_self kvs "framework_score" _
      | null => simp [classOkObj] at hobj
      | bool b => simp [classOkObj] at hobj
      | jint n => simp [classOkObj] at hobj
      | jnum q => simp [classOkObj] at hobj
      | str s2 => simp [classOkObj] at hobj
      | arr xs => simp [classOkObj] at hobj

/-- Witness for the amended C4, discharging both conjuncts' hypotheses at
concrete environments. -/
theorem scorecard_fallback_amended_witness :
    (jGet (analyze_web3_company w3envC4 c0 (.arr [])) "framework_score" = none ∧
     jGetD (analyze_web3_company w3envC4 c0 (.arr [])) "framework_score" (.obj []) =
       .obj []) ∧
    (∃ fs, jGet (analyze_web3_company ⟨.text "not json" (.error "Expecting value"),
        .text "also not json" (.error "Expecting value")⟩ c0 (.arr []))
          "framework_score" = some fs ∧
      jGet fs "overall_score" = some (.jnum 5) ∧
      jGet fs "investment_recommendation" = some (.str "Monitor")) :=
  ⟨(scorecard_fallback_amended w3envC4 c0 (.arr [])).1 "API connection error" rfl,
   (scorecard_fallback_amended ⟨.text "not json" (.error "Expecting value"),
      .text "also not json" (.error "Expecting value")⟩ c0 (.arr [])).2
     "not json" (.error "Expecting value") rfl rfl rfl⟩

/-! ## Claim C8 (corrected) -/

/-- Whether the news/market enrichment completion leaves
`research_company`'s `.get` calls well-defined: it fails, fails to parse,
or parses to a JSON object. -/
def webRespObjOrFail : LLMResp → Bool
  | .fail _ => true
  | .text _ (.error _) => true
  | .text _ (.ok (.obj _)) => true
  | .text _ (.ok _) => false

/-- A research environment whose website fetch raises and whose
news/market completion returns valid JSON that is a list, not an object. -/
def renvC8 : ResearchEnv :=
  ⟨.error "connection refused", .text "[1]" (.ok (.arr [.jint 1])), .fail "unused"⟩

/-- Counterexample to C8 as stated: with a fetch that raises,
`research_company` itself raises (rather than returning a dossier) when
the news/market completion parses to a non-object JSON value, because
`search_data.get("news", [])` raises `AttributeError` on a list. -/
theorem research_raises_on_nonobject_search :
    renvC8.scrapeResp = .error "connection refused" ∧
    exOk (research_company renvC8 c0) = false :=
  ⟨rfl, rfl⟩

/-- Claim C8 (amended): when the fetch raises, `_scrape_website` returns
the error-tagged `{error, url}` dict and `research_company` still returns
the dossier with that error-tagged `basic_info` and the team and
market/news enrichment results included — provided the news/market
completion either fails, fails to parse, or parses to a JSON object; if it
parses to a non-object JSON value, `research_company` raises regardless of
the probe outcome. -/
theorem research_dossier_on_scrape_failure (env : ResearchEnv)
    (c : CompanyData) (e : String)
    (hs : env.scrapeResp = .error e)
    (hw : webRespObjOrFail env.searchResp = true) :
    scrape_website env.scrapeResp c.website =
      .obj [("error", .str e), ("url", .str c.website)] ∧
    ∃ news market,
      pyGetD (web_search env.searchResp) "news" (.arr []) = .ok news ∧
      pyGetD (web_search env.searchResp) "market" (.obj []) = .ok market ∧
      research_company env c = .ok (.obj
        [("company_name", .str c.company_name),
         ("website", .str c.website),
         ("basic_info", .obj [("error", .str e), ("url", .str c.website)]),
         ("team_info", research_team env.teamResp),
         ("product_info", .obj []),
         ("market_info", market),
         ("financial_info", .obj []),
         ("news_mentions", news),
         ("social_presence", .obj [])]) := by
  obtain ⟨sc, se, te⟩ := env
  replace hs : sc = .error e := hs
  subst hs
  refine ⟨rfl, ?_⟩
  cases se with
  | fail e2 => exact ⟨_, _, rfl, rfl, rfl⟩
  | text s pr =>
    cases pr with
    | error pe => exact ⟨_, _, rfl, rfl, rfl⟩
    | ok j =>
      cases j with
      | obj kvs => exact ⟨_, _, rfl, rfl, rfl⟩
      | null => simp [webRespObjOrFail] at hw
      | bool b => simp [webRespObjOrFail] at hw
      | jint n => simp [webRespObjOrFail] at hw
      | jnum q => simp [webRespObjOrFail] at hw
      | str s2 => simp [webRespObjOrFail] at hw
      | arr xs => simp [webRespObjOrFail] at hw

/-- A research environment with a raising fetch and failing enrichment. -/
def renvC8w : ResearchEnv :=
  ⟨.error "connection refused", .fail "model down", .fail "model down"⟩

/-- Witness for the amended C8 at a concrete environment. -/
theorem research_dossier_on_scrape_failure_witness :
    scrape_website renvC8w.scrapeResp c0.website =
      .obj [("error", .str "connection refused"), ("url", .str c0.website)] ∧
    ∃ news market,
      pyGetD (web_search renvC8w.searchResp) "news" (.arr []) = .ok news ∧
      pyGetD (web_search renvC8w.searchResp) "market" (.obj []) = .ok market ∧
      research_company renvC8w c0 = .ok (.obj
        [("company_name", .str c0.company_name),
         ("website", .str c0.website),
         ("basic_info", .obj [("error", .str "connection refused"),
                              ("url", .str c0.website)]),
         ("team_info", research_team renvC8w.teamResp),
         ("product_info", .obj []),
         ("market_info", market),
         ("financial_info", .obj []),
         ("news_mentions", news),
         ("social_presence", .obj [])]) :=
  research_dossier_on_scrape_failure renvC8w c0 "connection refused" rfl rfl

/-! ## Claim C6 (corrected) -/

/-- When the framework-score lookup and the `dict.update` merge succeed
and the merged dict carries a string `company_name`, `generate_report`
returns the merged dict extended with the artifact path — rendering
failures degrade inside `_generate_pdf_report` and never propagate. -/
lemma generate_report_of_update_ok (env : ReportEnv) (c : CompanyData)
    (rd w3 scoring : JVal) (updated : List (String × JVal)) (cn : String)
    (hsc : pyGetD w3 "framework_score" (.obj []) = .ok scoring)
    (hupd : pyDictUpdate
        (objSet (reportBase c env.nowStamp rd w3 scoring)
          "executive_summary" (.str (generate_executive_summary env.summaryResp)))
        (generate_structured_analysis env.structuredResp) = .ok updated)
    (hcn : jLookup updated "company_name" = some (.str cn)) :
    ∃ pdfPath, generate_report env c rd w3 =
      .ok (.obj (objSet updated "pdf_path" (.str pdfPath))) := by
  unfold generate_report
  simp only [hsc, hupd]
  have hidx : pyIndex (.obj updated) "company_name" = .ok (.str cn) := by
    simp [pyIndex, hcn]
  obtain ⟨p, st, hp⟩ : ∃ p st,
      generate_pdf_report env.renderOk env.fileStamp (.obj updated) = .ok (p, st) := by
    unfold generate_pdf_report
    simp only [hidx]
    cases hbs : buildStory (.obj updated) with
    | error e => exact ⟨_, _, rfl⟩
    | ok story =>
      cases hro : env.renderOk
      · exact ⟨_, _, rfl⟩
      · exact ⟨_, _, rfl⟩
  simp only [hp]
  exact ⟨p, rfl⟩

/-- A report environment whose structured-analysis completion returns
valid JSON that is a number, not an object. -/
def renvC6 : ReportEnv :=
  ⟨.text "summary" (.error "p"), .text "3" (.ok (.jint 3)), true,
   "2025-01-01 00:00:00", "20250101_0000"⟩

/-- Counterexample to C6 as stated: with a structured-analysis completion
returning the valid JSON text "3" (a number), `report_data.update(3)`
raises `TypeError` and `generate_report` propagates it instead of
returning a report. -/
theorem report_raises_on_nonobject_json :
    exOk (generate_report renvC6 c0 (.obj []) (.obj [])) = false :=
  rfl

/-- Claim C6 (amended): whenever the summary completion fails and the
structured-analysis completion fails at transport level or returns text
that is not valid JSON — in particular under total enrichment failure —
`generate_report` returns without raising a complete report whose
`executive_summary` is the non-empty failure-marker string and whose
`key_findings` holds exactly one (failure-marker) entry.  The guarantee
does not extend to every successful completion: a response parsing to a
JSON value that `dict.update` cannot consume as a mapping (such as the
number in the counterexample) makes `generate_report` raise.  (Valid
non-object JSON that `dict.update` does accept — an empty array, an empty
string, an array of key/value pairs — still yields a report.) -/
theorem report_complete_under_enrichment_failure (env : ReportEnv)
    (c : CompanyData) (rd : JVal) (wkvs : List (String × JVal)) (e1 : String)
    (hsum : env.summaryResp = .fail e1)
    (hstr : scoreRespFails env.structuredResp = true) :
    ∃ rep, generate_report env c rd (.obj wkvs) = .ok rep ∧
      jGet rep "executive_summary" =
        some (.str ("Executive summary generation failed: " ++ e1)) ∧
      ("Executive summary generation failed: " ++ e1) ≠ "" ∧
      jGet rep "key_findings" =
        some (.arr [.str ("Analysis generation failed: " ++
          structErrMsg env.structuredResp)]) := by
  have hne : ("Executive summary generation failed: " ++ e1) ≠ "" := by
    intro hc
    have h2 := congrArg String.length hc
    rw [String.length_append] at h2
    have h3 : 0 < ("Executive summary generation failed: ").length := by decide
    rw [show ("" : String).length = 0 from rfl] at h2
    omega
  obtain ⟨sumR, strR, rOk, nowS, fileS⟩ := env
  replace hsum : sumR = .fail e1 := hsum
  subst hsum
  replace hstr : scoreRespFails strR = true := hstr
  cases strR with
  | fail e2 =>
    obtain ⟨p, hp⟩ := generate_report_of_update_ok
      ⟨.fail e1, .fail e2, rOk, nowS, fileS⟩ c rd (.obj wkvs) _ _
      c.company_name rfl rfl rfl
    exact ⟨_, hp, rfl, hne, rfl⟩
  | text s pr =>
    cases pr with
    | ok j => simp [scoreRespFails] at hstr
    | error pe =>
      obtain ⟨p, hp⟩ := generate_report_of_update_ok
        ⟨.fail e1, .text s (.error pe), rOk, nowS, fileS⟩ c rd (.obj wkvs) _ _
        c.company_name rfl rfl rfl
      exact ⟨_, hp, rfl, hne, rfl⟩

/-- A report environment under total enrichment failure. -/
def renvC6w : ReportEnv :=
  ⟨.fail "timeout", .text "oops" (.error "Expecting value"), true, "TS", "FS"⟩

/-- Witness for the amended C6 at a concrete environment. -/
theorem report_complete_under_enrichment_failure_witness :
    ∃ rep, generate_report renvC6w c0 (.obj []) (.obj []) = .ok rep ∧
      jGet rep "executive_summary" =
        some (.str ("Executive summary generation failed: " ++ "timeout")) ∧
      ("Executive summary generation failed: " ++ "timeout") ≠ "" ∧
      jGet rep "key_findings" =
        some (.arr [.str ("Analysis generation failed: " ++
          structErrMsg renvC6w.structuredResp)]) :=
  report_complete_under_enrichment_failure renvC6w c0 (.obj []) [] "timeout" rfl rfl

/-! ## Claim C9 -/


/-- When the scoring dict holds an `overall_score`, the scorecard section
is the header, the table and a spacer. -/
lemma scoreBlock_of_found (skvs : List (String × JVal)) (v : JVal)
    (h : jLookup skvs "overall_score" = some v) :
    scoreBlock (.obj skvs) = .ok [RElem.para "<b>Framework Scoring</b>",
      RElem.table (scoreRows (.obj skvs)), RElem.spacer] := by
  have htr : pyTruthy (.obj skvs) = true := by
    cases skvs with
    | nil => simp [jLookup] at h
    | cons a l => rfl
  have hin : pyIn "overall_score" (.obj skvs) = .ok true := by
    simp [pyIn, jHasKey, h]
  unfold scoreBlock
  rw [if_pos htr]
  simp only [hin]

/-- Bulleted blocks contain no tables. -/
lemma table_not_mem_bulletItems (v : JVal) (fb : List RElem)
    (rows : List (List String)) (h : bulletItems v = .ok fb) :
    RElem.table rows ∉ fb := by
  unfold bulletItems at h
  split at h
  · simp at h
  · injection h with h2
    subst h2
    intro hm
    simp [List.mem_map] at hm

/-- The executive-summary paragraph is not a table. -/
lemma table_ne_paraOf (es : JVal) (p : RElem) (rows : List (List String))
    (h : paraOf es = .ok p) : RElem.table rows ≠ p := by
  unfold paraOf at h
  split at h
  · injection h with h2; subst h2; simp
  · simp at h

/-- A table in the scorecard section forces a dict scoring value with an
`overall_score` key. -/
lemma scoreBlock_table_inv (scoring : JVal) (sb : List RElem)
    (rows : List (List String))
    (h : scoreBlock scoring = .ok sb) (ht : RElem.table rows ∈ sb) :
    ∃ skvs, scoring = .obj skvs ∧ jHasKey skvs "overall_score" = true := by
  unfold scoreBlock at h
  split at h
  · split at h
    · simp at h
    · split at h
      · rename_i v kvs htruthy hin
        injection h with h2
        subst h2
        have h3 : jHasKey kvs "overall_score" = true := by
          have h4 : pyIn "overall_score" (JVal.obj kvs) =
              .ok (jHasKey kvs "overall_score") := rfl
          rw [h4] at hin
          injection hin
        exact ⟨kvs, rfl, h3⟩
      · simp at h
    · injection h with h2; subst h2; simp at ht
  · injection h with h2; subst h2; simp at ht

/-- Any table in a successfully built story comes from the scorecard
section, so the report's scoring is a dict with an `overall_score` key. -/
lemma buildStory_table_inv (r : JVal) (story : List RElem)
    (rows : List (List String))
    (h : buildStory r = .ok story) (ht : RElem.table rows ∈ story) :
    ∃ skvs, pyGetD r "scoring" (.obj []) = .ok (.obj skvs) ∧
      jHasKey skvs "overall_score" = true := by
  unfold buildStory at h
  iterate 15 (split at h <;> try (exact Except.noConfusion h))
  injection h with h2
  subst h2
  rename_i x14 cnv hcn x13 genv hgen x12 esv hes x11 esPara hesP x10 recv hrecv
    x9 kfv hkf x8 fb hfb x7 rkv hrk x6 rb hrb x5 opv hop x4 ob hob
    x3 scv hsc x2 sb hsb x1 nsv hns x0 nb hnb
  simp only [List.mem_append, List.mem_cons, List.not_mem_nil, or_false,
    false_or, reduceCtorEq] at ht
  rcases ht with (((((h | h) | h) | h) | h) | h)
  · exact absurd h (table_ne_paraOf _ _ _ hesP)
  · exact absurd h (table_not_mem_bulletItems _ _ _ hfb)
  · exact absurd h (table_not_mem_bulletItems _ _ _ hrb)
  · exact absurd h (table_not_mem_bulletItems _ _ _ hob)
  · obtain ⟨skvs, hobj, hkey⟩ := scoreBlock_table_inv _ _ _ hsb h
    subst hobj
    exact ⟨skvs, hsc, hkey⟩
  · exact absurd h (table_not_mem_bulletItems _ _ _ hnb)

/-- Claim C9: rendering a report whose scoring contains
`overall_score = 8.5` produces a scorecard table whose last row's text
includes "8.5"; and a scorecard table is emitted only when an
`overall_score` key is present in the (dict) scoring data. -/
theorem render_scorecard_roundtrip :
    (∀ (cn gen es : String) (recv : JVal) (kf rk op ns : List JVal)
        (skvs : List (String × JVal)) (raw pp : JVal),
      jLookup skvs "overall_score" = some (.jnum (mkRat 17 2)) →
      ∃ story,
        buildStory (.obj
          [("company_name", .str cn), ("generated_at", .str gen),
           ("executive_summary", .str es), ("investment_recommendation", recv),
           ("key_findings", .arr kf), ("risks", .arr rk),
           ("opportunities", .arr op), ("next_steps", .arr ns),
           ("scoring", .obj skvs), ("raw_data", raw),
           ("pdf_path", pp)]) = .ok story ∧
        RElem.table (scoreRows (.obj skvs)) ∈ story ∧
        (scoreRows (.obj skvs)).getLast? = some ["Overall Score", "<b>8.5</b>"] ∧
        strContains "<b>8.5</b>" "8.5" = true) ∧
    (∀ (r : JVal) (story : List RElem) (rows : List (List String)),
      buildStory r = .ok story → RElem.table rows ∈ story →
      ∃ skvs, pyGetD r "scoring" (.obj []) = .ok (.obj skvs) ∧
        jHasKey skvs "overall_score" = true) := by
  constructor
  · intro cn gen es recv kf rk op ns skvs raw pp hov
    have hsb := scoreBlock_of_found skvs _ hov
    have hcell : jGetD (JVal.obj skvs) "overall_score" (JVal.str "N/A") =
        .jnum (mkRat 17 2) := by
      simp [jGetD, jGet, hov]
    have hst : buildStory (.obj
        [("company_name", .str cn), ("generated_at", .str gen),
         ("executive_summary", .str es), ("investment_recommendation", recv),
         ("key_findings", .arr kf), ("risks", .arr rk),
         ("opportunities", .arr op), ("next_steps", .arr ns),
         ("scoring", .obj skvs), ("raw_data", raw),
         ("pdf_path", pp)]) = .ok
        ([RElem.para "Investment Diligence Report",
          RElem.para ("<b>" ++ pyStr (.str cn) ++ "</b>"),
          RElem.para ("Generated: " ++ pyStr (.str gen)),
          RElem.spacer,
          RElem.para "<b>Executive Summary</b>",
          RElem.para es, RElem.spacer,
          RElem.para "<b>Investment Recommendation</b>",
          RElem.para ("<b><font color=\x27" ++ recColor recv ++ "\x27>" ++
            pyStr recv ++ "</font></b>"),
          RElem.spacer,
          RElem.para "<b>Key Findings</b>"] ++
         kf.map (fun it => RElem.para ("• " ++ pyStr it)) ++ [RElem.spacer] ++
         ([RElem.para "<b>Key Risks</b>"] ++
          rk.map (fun it => RElem.para ("• " ++ pyStr it)) ++ [RElem.spacer]) ++
         ([RElem.para "<b>Opportunities</b>"] ++
          op.map (fun it => RElem.para ("• " ++ pyStr it)) ++ [RElem.spacer]) ++
         [RElem.para "<b>Framework Scoring</b>",
          RElem.table (scoreRows (.obj skvs)), RElem.spacer] ++
         ([RElem.para "<b>Next Steps</b>"] ++
          ns.map (fun it => RElem.para ("• " ++ pyStr it)))) := by
      simp [buildStory, pyIndex, jLookup, paraOf, pyGetD, jGetD, jGet,
        bulletItems, pyIter, hsb]
    refine ⟨_, hst, ?_, ?_, by decide⟩
    · simp [List.mem_append]
    · rw [show (scoreRows (JVal.obj skvs)).getLast? =
          some ["Overall Score",
            "<b>" ++ pyStr (jGetD (JVal.obj skvs) "overall_score" (JVal.str "N/A")) ++
              "</b>"] from rfl]
      rw [hcell]
      decide
  · exact buildStory_table_inv

/-- The story of a rendering outcome (`[]` on error; used only where
success is separately established). -/
def exStory : Except String (List RElem) → List RElem
  | .ok l => l
  | .error _ => []

/-- The concrete report used by the C9 witness. -/
def reportC9 : JVal :=
  .obj [("company_name", .str "Acme"), ("generated_at", .str "TS"),
        ("executive_summary", .str "Sum"), ("investment_recommendation", .str "Go"),
        ("key_findings", .arr []), ("risks", .arr []),
        ("opportunities", .arr []), ("next_steps", .arr []),
        ("scoring", .obj [("overall_score", .jnum (mkRat 17 2))]),
        ("raw_data", .null), ("pdf_path", .null)]

/-- Witness for C9, applying both parts at concrete inputs. -/
theorem render_scorecard_roundtrip_witness :
    (∃ story,
      buildStory reportC9 = .ok story ∧
      RElem.table (scoreRows (.obj [("overall_score", .jnum (mkRat 17 2))])) ∈ story ∧
      (scoreRows (.obj [("overall_score", .jnum (mkRat 17 2))])).getLast? =
        some ["Overall Score", "<b>8.5</b>"] ∧
      strContains "<b>8.5</b>" "8.5" = true) ∧
    (∃ skvs, pyGetD reportC9 "scoring" (.obj []) = .ok (.obj skvs) ∧
      jHasKey skvs "overall_score" = true) :=
  ⟨render_scorecard_roundtrip.1 "Acme" "TS" "Sum" (.str "Go") [] [] [] []
    [("overall_score", .jnum (mkRat 17 2))] .null .null rfl,
   render_scorecard_roundtrip.2 reportC9 (exStory (buildStory reportC9))
    (scoreRows (.obj [("overall_score", .jnum (mkRat 17 2))])) rfl (by
      rw [show exStory (buildStory reportC9) =
        [RElem.para "Investment Diligence Report",
         RElem.para ("<b>" ++ "Acme" ++ "</b>"),
         RElem.para ("Generated: " ++ "TS"),
         RElem.spacer,
         RElem.para "<b>Executive Summary</b>",
         RElem.para "Sum", RElem.spacer,
         RElem.para "<b>Investment Recommendation</b>",
         RElem.para ("<b><font color=\x27" ++ "green" ++ "\x27>" ++ "Go" ++ "</font></b>"),
         RElem.spacer,
         RElem.para "<b>Key Findings</b>", RElem.spacer,
         RElem.para "<b>Key Risks</b>", RElem.spacer,
         RElem.para "<b>Opportunities</b>", RElem.spacer,
         RElem.para "<b>Framework Scoring</b>",
         RElem.table (scoreRows (.obj [("overall_score", .jnum (mkRat 17 2))])),
         RElem.spacer,
         RElem.para "<b>Next Steps</b>"] from rfl]
      simp)⟩

/-! ## Claims C1, C2 and C3 -/


/-- `dict.update` never removes keys. -/
lemma pyDictUpdate_preserves (base : List (String × JVal)) (v : JVal)
    (upd : List (String × JVal)) (key : String)
    (h : pyDictUpdate base v = .ok upd)
    (hk : (jLookup base key).isSome = true) :
    (jLookup upd key).isSome = true := by
  unfold pyDictUpdate at h
  split at h
  · simp at h
  · injection h with h2
    subst h2
    exact jLookup_foldl_objSet_isSome _ _ _ hk

/-- A successfully generated report is a dict that still carries the
`investment_recommendation`, `pdf_path` and `executive_summary` keys. -/
lemma generate_report_shape (env : ReportEnv) (c : CompanyData)
    (rd w3 rep : JVal) (h : generate_report env c rd w3 = .ok rep) :
    ∃ kvs, rep = .obj kvs ∧
      (jLookup kvs "investment_recommendation").isSome = true ∧
      (jLookup kvs "pdf_path").isSome = true ∧
      (jLookup kvs "executive_summary").isSome = true := by
  unfold generate_report at h
  split at h
  · simp at h
  · split at h
    · simp at h
    · split at h
      · simp at h
      · injection h with h2
        subst h2
        rename_i scoring hsc x2 updated hupd x3 pp story hpdf
        refine ⟨_, rfl, ?_, ?_, ?_⟩
        · rw [jLookup_objSet_ne _ _ _ _ (by decide)]
          exact pyDictUpdate_preserves _ _ _ _ hupd (by
            rw [jLookup_objSet_ne _ _ _ _ (by decide)]
            rfl)
        · rw [jLookup_objSet_self]
          rfl
        · rw [jLookup_objSet_ne _ _ _ _ (by decide)]
          exact pyDictUpdate_preserves _ _ _ _ hupd (by
            rw [jLookup_objSet_self]
            rfl)

/-- A successful pipeline body produces exactly the two successful
updates followed by the notification. -/
lemma pipelineBody_ok_trace (env : OrchEnv) (c : CompanyData) (u : Unit)
    (t : List Event) (hb : pipelineBody env c = (.ok u, t)) :
    ∃ aiRec pdfPath summary,
      t = [.updateCall c.external_id (initialFields env.now1) true,
           .updateCall c.external_id (completeFields aiRec env.now2) true,
           .notifyCall c.company_name pdfPath summary] := by
  unfold pipelineBody at hb
  repeat' split at hb
  all_goals try (apply absurd (congrArg Prod.fst hb); simp; done)
  simp only [Prod.mk.injEq] at hb
  exact ⟨_, _, _, hb.2.symm⟩

/-- Claim C3 (amended): whenever the failure-path update would succeed
(store reachable for it), the last `Diligence Status` successfully written
by a run is `Complete` or `Failed`; but if the record store fails for
every update after the initial one, the run can leave `In Progress` as the
last successfully written value (see the counterexample). -/
theorem lastDS_terminal (env : OrchEnv) (c : CompanyData)
    (h : storeOk env.storeErr = true) :
    lastDS (process_company_research env c).2 = some "Complete" ∨
    lastDS (process_company_research env c).2 = some "Failed" := by
  unfold process_company_research
  rcases hb : pipelineBody env c with ⟨r, t⟩
  cases r with
  | ok u =>
    left
    obtain ⟨aiRec, pdfPath, summary, ht⟩ := pipelineBody_ok_trace env c u t hb
    subst ht
    rfl
  | error e =>
    right
    obtain ⟨j, hj⟩ := update_record_ok_of_storeOk env.storeErr c.external_id
      (failFields env.nowErr) h
    show lastDS (t ++ [.updateCall c.external_id (failFields env.nowErr)
      (exOk (update_record env.storeErr c.external_id (failFields env.nowErr)).1)]) =
      some "Failed"
    rw [hj]
    unfold lastDS
    rw [List.filterMap_append]
    rw [show List.filterMap writtenDS
      [Event.updateCall c.external_id (failFields env.nowErr) (exOk (Except.ok j))] =
      ["Failed"] from rfl]
    rw [List.getLast?_concat]

/-- Claim C2: whenever any exception escapes the pipeline sequence, the
orchestrator issues the failure-status update (Stage `New Lead`,
Diligence Status `Failed`, AI Recommendation `Error - Review Manually`),
and `process_company_research` returns without raising for every input
and every collaborator behaviour — a failure of the failure-path update
itself is swallowed. -/
theorem process_never_raises (env : OrchEnv) (c : CompanyData) :
    (process_company_research env c).1 = .ok () ∧
    jLookup (failFields env.nowErr) "Stage" = some (.str "New Lead") ∧
    jLookup (failFields env.nowErr) "Diligence Status" = some (.str "Failed") ∧
    jLookup (failFields env.nowErr) "AI Recommendation" =
      some (.str "Error - Review Manually") ∧
    ∀ e t, pipelineBody env c = (.error e, t) →
      (process_company_research env c).2 =
        t ++ [.updateCall c.external_id (failFields env.nowErr)
          (exOk (update_record env.storeErr c.external_id
            (failFields env.nowErr)).1)] := by
  refine ⟨?_, rfl, rfl, rfl, ?_⟩
  · unfold process_company_research
    rcases hb : pipelineBody env c with ⟨r, t⟩
    cases r <;> rfl
  · intro e t hb
    unfold process_company_research
    rw [hb]

/-- An environment whose record store is down for the pipeline body but
up for the failure-path update. -/
def envFail : OrchEnv :=
  { store1 := ⟨.fail "down", .ok .null⟩,
    store2 := ⟨.fail "down", .ok .null⟩,
    storeErr := ⟨.ok [⟨"recX", []⟩], .ok .null⟩,
    researchEnv := ⟨.error "x", .fail "x", .fail "x"⟩,
    web3Env := ⟨.fail "x", .fail "x"⟩,
    reportEnv := ⟨.fail "x", .fail "x", true, "TS", "FS"⟩,
    smtp := .error "x",
    now1 := "t1", now2 := "t2", nowErr := "t3" }

/-- Witness for C2 at a concrete failing environment. -/
theorem process_never_raises_witness :
    (process_company_research envFail c0).1 = .ok () ∧
    (process_company_research envFail c0).2 =
      [.updateCall "X1" (initialFields "t1") false] ++
      [.updateCall "X1" (failFields "t3")
        (exOk (update_record envFail.storeErr "X1" (failFields "t3")).1)] :=
  ⟨(process_never_raises envFail c0).1,
   (process_never_raises envFail c0).2.2.2.2
     ("Record not found for external ID: " ++ "X1")
     [.updateCall "X1" (initialFields "t1") false] rfl⟩

/-- Claim C1: when both record-store updates, the research step and the
report step succeed, the run's observable trace is exactly the
Initial-Research/In-Progress update, then the Partner-Review/Complete
update carrying the report's `investment_recommendation` (the key is
always present in a generated report), then exactly one notification with
the company name, the report's artifact path and its executive summary. -/
theorem process_success_trace (env : OrchEnv) (c : CompanyData)
    (h1 : storeOk env.store1 = true) (h2 : storeOk env.store2 = true)
    (h3 : exOk (researchStep env c) = true)
    (h4 : exOk (reportStep env c) = true) :
    (process_company_research env c).1 = .ok () ∧
    (process_company_research env c).2 =
      [.updateCall c.external_id (initialFields env.now1) true,
       .updateCall c.external_id
         (completeFields (jGetD (exVal (reportStep env c))
           "investment_recommendation" (.str "Monitor")) env.now2) true,
       .notifyCall c.company_name
         (jGetD (exVal (reportStep env c)) "pdf_path" (.str ""))
         (jGetD (exVal (reportStep env c)) "executive_summary"
           (.str "Summary not available"))] ∧
    (jGet (exVal (reportStep env c)) "investment_recommendation").isSome = true := by
  have hres : research_company env.researchEnv c =
      .ok (exVal (researchStep env c)) := exOk_eq_ok _ h3
  have hrep : generate_report env.reportEnv c (exVal (researchStep env c))
      (analyze_web3_company env.web3Env c (exVal (researchStep env c))) =
      .ok (exVal (reportStep env c)) := exOk_eq_ok _ h4
  obtain ⟨kvs, hkvs, hinv, hpdf, hsum⟩ := generate_report_shape _ _ _ _ _ hrep
  obtain ⟨j1, hj1⟩ := update_record_ok_of_storeOk env.store1 c.external_id
    (initialFields env.now1) h1
  obtain ⟨j2, hj2⟩ := update_record_ok_of_storeOk env.store2 c.external_id
    (completeFields (jGetD (exVal (reportStep env c))
      "investment_recommendation" (.str "Monitor")) env.now2) h2
  have hget1 : pyGetD (exVal (reportStep env c)) "investment_recommendation"
      (.str "Monitor") = .ok (jGetD (exVal (reportStep env c))
      "investment_recommendation" (.str "Monitor")) := by rw [hkvs]; rfl
  have hget2 : pyGetD (exVal (reportStep env c)) "pdf_path" (.str "") =
      .ok (jGetD (exVal (reportStep env c)) "pdf_path" (.str "")) := by
    rw [hkvs]; rfl
  have hget3 : pyGetD (exVal (reportStep env c)) "executive_summary"
      (.str "Summary not available") =
      .ok (jGetD (exVal (reportStep env c)) "executive_summary"
        (.str "Summary not available")) := by rw [hkvs]; rfl
  have hP : process_company_research env c = (.ok (),
      [.updateCall c.external_id (initialFields env.now1) true,
       .updateCall c.external_id
         (completeFields (jGetD (exVal (reportStep env c))
           "investment_recommendation" (.str "Monitor")) env.now2) true,
       .notifyCall c.company_name
         (jGetD (exVal (reportStep env c)) "pdf_path" (.str ""))
         (jGetD (exVal (reportStep env c)) "executive_summary"
           (.str "Summary not available"))]) := by
    unfold process_company_research pipelineBody
    simp only [hj1, hres, hrep, hget1, hj2, hget2, hget3]
  refine ⟨by rw [hP], by rw [hP], ?_⟩
  rw [hkvs]
  exact hinv

/-- An environment in which every pipeline step succeeds. -/
def envOk : OrchEnv :=
  { store1 := ⟨.ok [⟨"r1", []⟩], .ok .null⟩,
    store2 := ⟨.ok [⟨"r1", []⟩], .ok .null⟩,
    storeErr := ⟨.ok [⟨"r1", []⟩], .ok .null⟩,
    researchEnv := ⟨.error "no site", .fail "llm down", .fail "llm down"⟩,
    web3Env := ⟨.fail "llm down", .fail "llm down"⟩,
    reportEnv := ⟨.fail "llm down", .text "oops" (.error "Expecting value"),
      true, "TS", "FS"⟩,
    smtp := .ok (),
    now1 := "t1", now2 := "t2", nowErr := "t3" }

/-- Witness for C1 at a concrete all-success environment. -/
theorem process_success_trace_witness :
    storeOk envOk.store1 = true ∧
    exOk (researchStep envOk c0) = true ∧
    exOk (reportStep envOk c0) = true ∧
    ((process_company_research envOk c0).1 = .ok () ∧
     (process_company_research envOk c0).2 =
       [.updateCall c0.external_id (initialFields "t1") true,
        .updateCall c0.external_id
          (completeFields (jGetD (exVal (reportStep envOk c0))
            "investment_recommendation" (.str "Monitor")) "t2") true,
        .notifyCall c0.company_name
          (jGetD (exVal (reportStep envOk c0)) "pdf_path" (.str ""))
          (jGetD (exVal (reportStep envOk c0)) "executive_summary"
            (.str "Summary not available"))] ∧
     (jGet (exVal (reportStep envOk c0)) "investment_recommendation").isSome = true) :=
  ⟨rfl, rfl, rfl, process_success_trace envOk c0 rfl rfl rfl rfl⟩

/-- An environment where the store works for the first update, then
fails for the completion update and for the failure-path update. -/
def envC3 : OrchEnv :=
  { store1 := ⟨.ok [⟨"r1", []⟩], .ok .null⟩,
    store2 := ⟨.ok [⟨"r1", []⟩], .fail "503 Server Error"⟩,
    storeErr := ⟨.fail "connection error", .ok .null⟩,
    researchEnv := ⟨.error "no site", .fail "llm down", .fail "llm down"⟩,
    web3Env := ⟨.fail "llm down", .fail "llm down"⟩,
    reportEnv := ⟨.fail "llm down", .text "oops" (.error "Expecting value"),
      true, "TS", "FS"⟩,
    smtp := .ok (),
    now1 := "t1", now2 := "t2", nowErr := "t3" }

/-- Counterexample to C3 as stated: when the completion update and the
failure-path update both fail after a successful In-Progress write, the
run terminates with `In Progress` as the last successfully written
Diligence Status — neither `Complete` nor `Failed`. -/
theorem lastDS_stuck_in_progress :
    storeOk envC3.store1 = true ∧
    lastDS (process_company_research envC3 c0).2 = some "In Progress" :=
  ⟨rfl, rfl⟩

/-- Like `envC3`, but with the failure-path update able to succeed. -/
def envC3w : OrchEnv :=
  { store1 := ⟨.ok [⟨"r1", []⟩], .ok .null⟩,
    store2 := ⟨.ok [⟨"r1", []⟩], .fail "503 Server Error"⟩,
    storeErr := ⟨.ok [⟨"r1", []⟩], .ok .null⟩,
    researchEnv := ⟨.error "no site", .fail "llm down", .fail "llm down"⟩,
    web3Env := ⟨.fail "llm down", .fail "llm down"⟩,
    reportEnv := ⟨.fail "llm down", .text "oops" (.error "Expecting value"),
      true, "TS", "FS"⟩,
    smtp := .ok (),
    now1 := "t1", now2 := "t2", nowErr := "t3" }

/-- Witness for the amended C3 at a concrete environment. -/
theorem lastDS_terminal_witness :
    storeOk envC3w.storeErr = true ∧
    (lastDS (process_company_research envC3w c0).2 = some "Complete" ∨
     lastDS (process_company_research envC3w c0).2 = some "Failed") :=
  ⟨rfl, lastDS_terminal envC3w c0 rfl⟩
